import Mathlib

/-!
Verification of the dataEnrichmentTool repository: a shallow embedding of the
record-enrichment pipeline (contact enrichment, company enrichment strict and
loose, contact search, new-contact hydration, address backfill, token
lifecycle) of both the desktop modules (contactEnrich.py, companyEnrich.py,
contactSearch.py, addNewContact.py, jsonParser.py, auth.py) and the Lambda
modules (lambda_enrichment.py, lambda_auth.py), together with theorems about
the specified invariants.

Records are Python dicts whose values are strings; the CSV converter
(fileConvert.csv_to_json, lambda _csv_to_json) initialises every pipeline
field, with "" as the empty sentinel, so a record is embedded as a structure
of string fields.  HTTP exchanges are embedded as explicit response values
(an oracle mapping the request the code builds to a response), and Python
exceptions that the code can raise (AttributeError on None, IndexError,
KeyError) as Except.
-/

namespace DataEnrichment

/-- A dataset record as produced by fileConvert.csv_to_json /
lambda _csv_to_json: every pipeline field present, the empty string as the
empty sentinel. -/
structure Entry where
  companyName : String
  firstName : String
  lastName : String
  emailAddress : String
  phone : String
  jobTitle : String
  companyStreet : String
  companyCity : String
  companyState : String
  companyZipCode : String
  companyCountry : String
  zi_c_name : String
  zi_c_company_id : String
  zi_c_company_name : String
  zi_c_phone : String
  zi_c_url : String
  zi_c_linkedin_url : String
  zi_c_naics6 : String
  zi_c_industry_primary : String
  zi_c_sub_industry_primary : String
  zi_c_employees : String
  zi_c_street : String
  zi_c_city : String
  zi_c_state : String
  zi_c_zip : String
  zi_c_country : String
  zi_c_location_id : String
  needsContact : String
  newContactFound : String
  personId : String
  contactMatchCriteria : String
  contactMeetsCriteria : String
  company_match_criteria : String
  enrichmentStatus : String
  errorMessage : String
  deriving Repr, DecidableEq

/-- The blank record: all fields at the empty sentinel (fileConvert
initialises enrichmentStatus to "Success"; tests override fields as needed). -/
def e0 : Entry where
  companyName := ""
  firstName := ""
  lastName := ""
  emailAddress := ""
  phone := ""
  jobTitle := ""
  companyStreet := ""
  companyCity := ""
  companyState := ""
  companyZipCode := ""
  companyCountry := ""
  zi_c_name := ""
  zi_c_company_id := ""
  zi_c_company_name := ""
  zi_c_phone := ""
  zi_c_url := ""
  zi_c_linkedin_url := ""
  zi_c_naics6 := ""
  zi_c_industry_primary := ""
  zi_c_sub_industry_primary := ""
  zi_c_employees := ""
  zi_c_street := ""
  zi_c_city := ""
  zi_c_state := ""
  zi_c_zip := ""
  zi_c_country := ""
  zi_c_location_id := ""
  needsContact := ""
  newContactFound := ""
  personId := ""
  contactMatchCriteria := ""
  contactMeetsCriteria := ""
  company_match_criteria := ""
  enrichmentStatus := "Success"
  errorMessage := ""

/-- An HTTP response: status code, raw text (used for error bodies), and the
parsed JSON body (used on status 200). -/
structure Http (α : Type) where
  status : Nat
  text : String
  body : α
  deriving Repr, DecidableEq

/-- The error-recording lines shared by every desktop fetch function
(contactEnrich.py 48-49, companyEnrich.py 60-61 and 185-186,
contactSearch.py 47-48 and 101-102, addNewContact.py 42-43):
entry[enrichmentStatus] = Failed; entry[errorMessage] = response.text. -/
def markFailed (e : Entry) (text : String) : Entry :=
  { e with enrichmentStatus := "Failed", errorMessage := text }

/-! ## jsonParser.py -/

/-- Embedded from jsonParser.updateNeedsContact (lines 21-26), the per-record
body of the loop: needsContact is set to "Yes" when firstName, lastName,
emailAddress and phone are all the empty string, and to "No" otherwise. -/
def updateNeedsContact_entry (e : Entry) : Entry :=
  if e.firstName = "" ∧ e.lastName = "" ∧ e.emailAddress = "" ∧ e.phone = "" then
    { e with needsContact := "Yes" }
  else
    { e with needsContact := "No" }

/-- Embedded from jsonParser.update_address (lines 68-74), the per-record body
of the loop: when companyStreet, companyCity, companyState and companyZipCode
are all empty, all four are overwritten with zi_c_street, zi_c_city,
zi_c_state, zi_c_zip; otherwise the record is untouched. -/
def update_address_entry (e : Entry) : Entry :=
  if e.companyStreet = "" ∧ e.companyCity = "" ∧ e.companyState = "" ∧ e.companyZipCode = "" then
    { e with
      companyStreet := e.zi_c_street
      companyCity := e.zi_c_city
      companyState := e.zi_c_state
      companyZipCode := e.zi_c_zip }
  else
    e

/-! ## contactEnrich.py -/

/-- The matchPersonInput object built by
contactEnrich.get_contact_enrichment_data (lines 30-36). -/
structure MatchPersonInput where
  companyName : String
  firstName : String
  lastName : String
  emailAddress : String
  phone : String
  deriving Repr, DecidableEq

/-- Request construction of contactEnrich.get_contact_enrichment_data
(lines 30-36): the five identity attributes of the entry. -/
def build_match_person_input (e : Entry) : MatchPersonInput where
  companyName := e.companyName
  firstName := e.firstName
  lastName := e.lastName
  emailAddress := e.emailAddress
  phone := e.phone

/-- One person object inside a person-endpoint result, as read by
update_contact_data / update_new_contact_data (the data list elements). -/
structure PersonData where
  firstName : String
  lastName : String
  email : String
  phone : String
  jobTitle : String
  deriving Repr, DecidableEq

/-- One element of the result list of the person endpoints:
matchStatus together with its data list. -/
structure PersonResult where
  matchStatus : String
  data : List PersonData
  deriving Repr, DecidableEq

/-- Parsed body of a person-endpoint 200 response:
success flag and the result list found under data.result. -/
structure ContactResp where
  success : Bool
  result : List PersonResult
  deriving Repr, DecidableEq

/-- Embedded from contactEnrich.get_contact_enrichment_data (lines 7-52): the
request is built from the entry and posted (the oracle maps the request the
code builds to the HTTP response).  On a non-200 status the entry is marked
Failed with the response text and None is returned; on 200 the parsed body is
returned with the entry untouched. -/
def get_contact_enrichment_data (oracle : MatchPersonInput → Http ContactResp)
    (e : Entry) : Entry × Option ContactResp :=
  if (oracle (build_match_person_input e)).status ≠ 200 then
    (markFailed e (oracle (build_match_person_input e)).text, none)
  else
    (e, some (oracle (build_match_person_input e)).body)

/-- Embedded from contactEnrich.update_contact_data (lines 56-83):
person_data = new_data_item[data][0] (IndexError when the data list is empty,
modelled as Except.error); each of firstName, lastName, emailAddress, phone
is overwritten only when currently empty and the incoming value is truthy. -/
def update_contact_data (e : Entry) (item : PersonResult) : Except String Entry :=
  match item.data with
  | [] => .error "IndexError: list index out of range"
  | pd :: _ => .ok
    { e with
      firstName := if e.firstName = "" ∧ pd.firstName ≠ "" then pd.firstName else e.firstName
      lastName := if e.lastName = "" ∧ pd.lastName ≠ "" then pd.lastName else e.lastName
      emailAddress := if e.emailAddress = "" ∧ pd.email ≠ "" then pd.email else e.emailAddress
      phone := if e.phone = "" ∧ pd.phone ≠ "" then pd.phone else e.phone }

/-- Embedded from the loop body of contactEnrich.contact_enrich
(lines 113-116).  new_data = get_contact_enrichment_data(entry, token); then
the code evaluates new_data.get(success): when the fetch returned None (non-200
response) this raises AttributeError (NoneType has no attribute get), embedded
as Except.error.  On a success body, new_data[data][result][0] is subscripted
(IndexError on an empty result list), its matchStatus compared against
CONTACT_ONLY_MATCH / FULL_MATCH, and update_contact_data applied. -/
def contact_step (oracle : MatchPersonInput → Http ContactResp)
    (e : Entry) : Except String Entry :=
  match get_contact_enrichment_data oracle e with
  | (_, none) => .error "AttributeError: NoneType object has no attribute get"
  | (e1, some resp) =>
    if resp.success then
      match resp.result with
      | [] => .error "IndexError: list index out of range"
      | item :: _ =>
        if item.matchStatus = "CONTACT_ONLY_MATCH" ∨ item.matchStatus = "FULL_MATCH" then
          update_contact_data e1 item
        else
          .ok e1
    else
      .ok e1

/-- Embedded from contactEnrich.contact_enrich (lines 101-121): the pass
iterates the loaded records in order, applies the loop body to each and
appends the result to merged_data, which is written back; an uncaught
exception aborts the pass (no write-back). -/
def contact_enrich_pass (oracle : MatchPersonInput → Http ContactResp) :
    List Entry → Except String (List Entry)
  | [] => .ok []
  | e :: rest =>
    match contact_step oracle e with
    | .error m => .error m
    | .ok e1 =>
      match contact_enrich_pass oracle rest with
      | .error m => .error m
      | .ok out => .ok (e1 :: out)

/-! ## addNewContact.py -/

/-- Embedded from addNewContact.get_new_contact_data (lines 7-46): match key
is the personId alone (the oracle maps the personId the code sends to the
response); a non-200 status marks the entry Failed and yields None, a 200
status yields the parsed body. -/
def get_new_contact_data (oracle : String → Http ContactResp)
    (e : Entry) : Entry × Option ContactResp :=
  if (oracle e.personId).status ≠ 200 then
    (markFailed e (oracle e.personId).text, none)
  else
    (e, some (oracle e.personId).body)

/-- Embedded from addNewContact.update_new_contact_data (lines 49-74): like
update_contact_data with jobTitle as a fifth fill-only field; IndexError on an
empty data list (modelled as Except.error, caught by the caller). -/
def update_new_contact_data (e : Entry) (item : PersonResult) : Except String Entry :=
  match item.data with
  | [] => .error "IndexError: list index out of range"
  | pd :: _ => .ok
    { e with
      firstName := if e.firstName = "" ∧ pd.firstName ≠ "" then pd.firstName else e.firstName
      lastName := if e.lastName = "" ∧ pd.lastName ≠ "" then pd.lastName else e.lastName
      emailAddress := if e.emailAddress = "" ∧ pd.email ≠ "" then pd.email else e.emailAddress
      phone := if e.phone = "" ∧ pd.phone ≠ "" then pd.phone else e.phone
      jobTitle := if e.jobTitle = "" ∧ pd.jobTitle ≠ "" then pd.jobTitle else e.jobTitle }

/-- Embedded from the loop body of addNewContact.add_new_contact
(lines 104-119): only records with needsContact = Yes and a truthy personId
are processed; the fetch result is guarded with `if new_data and
new_data.get(success)` (so a None from a non-200 response is skipped, not
dereferenced); result[0] subscripting and update_new_contact_data sit inside
`try ... except IndexError`, so an empty result or data list leaves the entry
as already mutated and the loop continues. -/
def add_new_contact_step (oracle : String → Http ContactResp) (e : Entry) : Entry :=
  if e.needsContact = "Yes" ∧ e.personId ≠ "" then
    match get_new_contact_data oracle e with
    | (e1, none) => e1
    | (e1, some resp) =>
      if resp.success then
        match resp.result with
        | [] => e1
        | item :: _ =>
          match update_new_contact_data e1 item with
          | .error _ => e1
          | .ok e2 => e2
      else
        e1
  else
    e

/-- Embedded from addNewContact.add_new_contact (lines 92-124): every record
is appended to merged_data in order (the loop body itself catches IndexError),
and merged_data is written back after the loop. -/
def add_new_contact_pass (oracle : String → Http ContactResp) :
    List Entry → List Entry
  | [] => []
  | e :: rest => add_new_contact_step oracle e :: add_new_contact_pass oracle rest

/-! ## companyEnrich.py -/

/-- The address sub-object of a matchCompanyInput; the loose builder sends
only the country key. -/
structure CompanyAddress where
  zi_c_street : Option String
  zi_c_city : Option String
  zi_c_state : Option String
  zi_c_zip : Option String
  zi_c_country : Option String
  deriving Repr, DecidableEq

/-- The matchCompanyInput object built by get_company_enrichment_data /
get_company_enrichment_data_loose: name, phone, address, match_reasons, and
the email key which is present only when the entry email is truthy. -/
structure CompanyMatchInput where
  zi_c_name : String
  zi_c_phone : String
  address : CompanyAddress
  match_reasons : List (String × String)
  email : Option String
  deriving Repr, DecidableEq

/-- Request construction of companyEnrich.get_company_enrichment_data
(lines 25-42): full address, match reasons country Exact and name Fuzzy,
email included iff entry.emailAddress is non-empty. -/
def build_match_company_input (e : Entry) : CompanyMatchInput where
  zi_c_name := e.companyName
  zi_c_phone := e.phone
  address :=
    { zi_c_street := some e.companyStreet
      zi_c_city := some e.companyCity
      zi_c_state := some e.companyState
      zi_c_zip := some e.companyZipCode
      zi_c_country := some e.companyCountry }
  match_reasons := [("zi_c_country", "E"), ("zi_c_name", "F")]
  email := if e.emailAddress ≠ "" then some e.emailAddress else none

/-- Request construction of companyEnrich.get_company_enrichment_data_loose
(lines 154-167): country-only address, match reason country Exact,
email included iff entry.emailAddress is non-empty. -/
def build_match_company_input_loose (e : Entry) : CompanyMatchInput where
  zi_c_name := e.companyName
  zi_c_phone := e.phone
  address :=
    { zi_c_street := none
      zi_c_city := none
      zi_c_state := none
      zi_c_zip := none
      zi_c_country := some e.companyCountry }
  match_reasons := [("zi_c_country", "E")]
  email := if e.emailAddress ≠ "" then some e.emailAddress else none

/-- The company object under result[i].data; every output field optional
(update_company_data tests `field in company_data`). -/
structure CompanyData where
  zi_c_location_id : Option String
  zi_c_company_name : Option String
  zi_c_phone : Option String
  zi_c_url : Option String
  zi_c_naics6 : Option String
  zi_c_industry_primary : Option String
  zi_c_sub_industry_primary : Option String
  zi_c_employees : Option String
  zi_c_street : Option String
  zi_c_city : Option String
  zi_c_state : Option String
  zi_c_zip : Option String
  zi_c_country : Option String
  zi_c_name : Option String
  zi_c_company_id : Option String
  deriving Repr, DecidableEq

/-- One element of the company result list; the data key may be absent
(subscripting it then raises KeyError). -/
structure CompanyItem where
  data : Option CompanyData
  deriving Repr, DecidableEq

/-- The object under the data key of a company response: its result list. -/
structure CompanyInner where
  result : List CompanyItem
  deriving Repr, DecidableEq

/-- Parsed body of a company-endpoint 200 response: success flag and an
optional data object (update_company_data tests `data in new_data_item`). -/
structure CompanyRespBody where
  success : Bool
  data : Option CompanyInner
  deriving Repr, DecidableEq

/-- Embedded from companyEnrich.get_company_enrichment_data (lines 7-64): the
strict request is built and posted exactly once (the returned list is the
requests sent, for request-counting theorems); a non-200 status — HTTP 400
included — marks the entry Failed with the response text and returns None
with no retry; a 200 status returns the parsed body. -/
def get_company_enrichment_data (oracle : CompanyMatchInput → Http CompanyRespBody)
    (e : Entry) : Entry × Option CompanyRespBody × List CompanyMatchInput :=
  if (oracle (build_match_company_input e)).status ≠ 200 then
    (markFailed e (oracle (build_match_company_input e)).text, none, [build_match_company_input e])
  else
    (e, some (oracle (build_match_company_input e)).body, [build_match_company_input e])

/-- Embedded from companyEnrich.get_company_enrichment_data_loose
(lines 136-189): identical to the strict fetch except for the request
builder. -/
def get_company_enrichment_data_loose (oracle : CompanyMatchInput → Http CompanyRespBody)
    (e : Entry) : Entry × Option CompanyRespBody × List CompanyMatchInput :=
  if (oracle (build_match_company_input_loose e)).status ≠ 200 then
    (markFailed e (oracle (build_match_company_input_loose e)).text, none,
      [build_match_company_input_loose e])
  else
    (e, some (oracle (build_match_company_input_loose e)).body,
      [build_match_company_input_loose e])

/-- The unrolled field loop of companyEnrich.update_company_data
(lines 82-91): for each of the fifteen listed fields,
`if entry[field] == '' and field in company_data: entry[field] =
company_data[field]` — when the entry field is empty, Option.getD ""
yields the incoming value when the key is present and keeps "" otherwise. -/
def companyFillMerge (e : Entry) (cd : CompanyData) : Entry :=
  { e with
    zi_c_location_id := if e.zi_c_location_id = "" then cd.zi_c_location_id.getD "" else e.zi_c_location_id
    zi_c_company_name := if e.zi_c_company_name = "" then cd.zi_c_company_name.getD "" else e.zi_c_company_name
    zi_c_phone := if e.zi_c_phone = "" then cd.zi_c_phone.getD "" else e.zi_c_phone
    zi_c_url := if e.zi_c_url = "" then cd.zi_c_url.getD "" else e.zi_c_url
    zi_c_naics6 := if e.zi_c_naics6 = "" then cd.zi_c_naics6.getD "" else e.zi_c_naics6
    zi_c_industry_primary := if e.zi_c_industry_primary = "" then cd.zi_c_industry_primary.getD "" else e.zi_c_industry_primary
    zi_c_sub_industry_primary := if e.zi_c_sub_industry_primary = "" then cd.zi_c_sub_industry_primary.getD "" else e.zi_c_sub_industry_primary
    zi_c_employees := if e.zi_c_employees = "" then cd.zi_c_employees.getD "" else e.zi_c_employees
    zi_c_street := if e.zi_c_street = "" then cd.zi_c_street.getD "" else e.zi_c_street
    zi_c_city := if e.zi_c_city = "" then cd.zi_c_city.getD "" else e.zi_c_city
    zi_c_state := if e.zi_c_state = "" then cd.zi_c_state.getD "" else e.zi_c_state
    zi_c_zip := if e.zi_c_zip = "" then cd.zi_c_zip.getD "" else e.zi_c_zip
    zi_c_country := if e.zi_c_country = "" then cd.zi_c_country.getD "" else e.zi_c_country
    zi_c_name := if e.zi_c_name = "" then cd.zi_c_name.getD "" else e.zi_c_name
    zi_c_company_id := if e.zi_c_company_id = "" then cd.zi_c_company_id.getD "" else e.zi_c_company_id }

/-- Embedded from companyEnrich.update_company_data (lines 67-96): when the
response has a data key whose result list is non-empty, result[0][data] is
merged fill-only into the entry (KeyError, modelled as Except.error, when
result[0] lacks the data key); otherwise the entry is returned unchanged. -/
def update_company_data (e : Entry) (resp : CompanyRespBody) : Except String Entry :=
  match resp.data with
  | some inner =>
    match inner.result with
    | [] => .ok e
    | item :: _ =>
      match item.data with
      | none => .error "KeyError: data"
      | some cd => .ok (companyFillMerge e cd)
  | none => .ok e

/-- companyEnrich.update_company_data_loose (lines 192-221) duplicates the
body of update_company_data verbatim. -/
def update_company_data_loose (e : Entry) (resp : CompanyRespBody) : Except String Entry :=
  update_company_data e resp

/-- Embedded from the loop body of companyEnrich.company_enrich
(lines 125-128): the fetch result is guarded by `if new_data and
new_data.get(success)` (a None from a non-200 response skips the merge and
appends the entry as mutated); a truthy success applies update_company_data. -/
def company_step (oracle : CompanyMatchInput → Http CompanyRespBody)
    (e : Entry) : Except String Entry :=
  match get_company_enrichment_data oracle e with
  | (e1, none, _) => .ok e1
  | (e1, some resp, _) => if resp.success then update_company_data e1 resp else .ok e1

/-- Embedded from the loop body of companyEnrich.company_enrich_loose
(lines 251-254): same shape as company_step with the loose fetch and merge. -/
def company_step_loose (oracle : CompanyMatchInput → Http CompanyRespBody)
    (e : Entry) : Except String Entry :=
  match get_company_enrichment_data_loose oracle e with
  | (e1, none, _) => .ok e1
  | (e1, some resp, _) => if resp.success then update_company_data_loose e1 resp else .ok e1

/-- Embedded from companyEnrich.company_enrich (lines 99-133): the strict pass
visits every record in order — there is no per-record condition — and appends
each processed record to merged_data, written back after the loop. -/
def company_enrich_pass (oracle : CompanyMatchInput → Http CompanyRespBody) :
    List Entry → Except String (List Entry)
  | [] => .ok []
  | e :: rest =>
    match company_step oracle e with
    | .error m => .error m
    | .ok e1 =>
      match company_enrich_pass oracle rest with
      | .error m => .error m
      | .ok out => .ok (e1 :: out)

/-- Embedded from companyEnrich.company_enrich_loose (lines 224-259): the
loose pass likewise visits every record unconditionally — it is not gated on
the outcome of the strict pass. -/
def company_enrich_loose_pass (oracle : CompanyMatchInput → Http CompanyRespBody) :
    List Entry → Except String (List Entry)
  | [] => .ok []
  | e :: rest =>
    match company_step_loose oracle e with
    | .error m => .error m
    | .ok e1 =>
      match company_enrich_loose_pass oracle rest with
      | .error m => .error m
      | .ok out => .ok (e1 :: out)

/-- The stage order fixed by main.main (lines 90-91): company_enrich is called
on the file first, company_enrich_loose immediately after, so per record the
composite is the loose step after the strict step. -/
def company_enrich_both (oracleStrict oracleLoose : CompanyMatchInput → Http CompanyRespBody)
    (e : Entry) : Except String Entry :=
  match company_step oracleStrict e with
  | .error m => .error m
  | .ok e1 => company_step_loose oracleLoose e1

/-! ## contactSearch.py -/

/-- One element of the search-endpoint data list; only its id is read. -/
structure SearchItem where
  id : String
  deriving Repr, DecidableEq

/-- Parsed body of a search-endpoint 200 response: its data list
(`response_data.get(data)` is truthy iff the list is non-empty). -/
structure SearchBody where
  data : List SearchItem
  deriving Repr, DecidableEq

/-- Embedded from contactSearch.get_contact_person_id_strict (lines 6-58):
an empty zi_c_company_id returns None before any request; the request is
keyed by the company id (the oracle maps the id the code sends — the strict
query carries the managementLevel / department filters — to the response);
non-200 marks the entry Failed and returns None; otherwise the id of data[0]
is returned when present and truthy. -/
def get_contact_person_id_strict (oracle : String → Http SearchBody)
    (e : Entry) : Entry × Option String :=
  if e.zi_c_company_id = "" then (e, none)
  else if (oracle e.zi_c_company_id).status ≠ 200 then
    (markFailed e (oracle e.zi_c_company_id).text, none)
  else
    match (oracle e.zi_c_company_id).body.data with
    | [] => (e, none)
    | item :: _ => if item.id ≠ "" then (e, some item.id) else (e, none)

/-- Embedded from contactSearch.get_contact_person_id_loose (lines 61-112):
identical control flow to the strict fetch; the request it sends omits the
managementLevel / department filters (a separate oracle). -/
def get_contact_person_id_loose (oracle : String → Http SearchBody)
    (e : Entry) : Entry × Option String :=
  if e.zi_c_company_id = "" then (e, none)
  else if (oracle e.zi_c_company_id).status ≠ 200 then
    (markFailed e (oracle e.zi_c_company_id).text, none)
  else
    match (oracle e.zi_c_company_id).body.data with
    | [] => (e, none)
    | item :: _ => if item.id ≠ "" then (e, some item.id) else (e, none)

/-- Embedded from the loop body of contactSearch.contact_search_strict
(lines 138-148): records with needsContact = Yes (the `zi_c_company_id in
entry` key test is always true for converter-produced records) are queried;
on a person id the code sets personId, newContactFound = Yes and
contactMeetsCriteria = Yes; on None it sets newContactFound = No.  No line
writes contactMatchCriteria. -/
def contact_search_strict_step (oracle : String → Http SearchBody) (e : Entry) : Entry :=
  if e.needsContact = "Yes" then
    match get_contact_person_id_strict oracle e with
    | (e1, some pid) =>
      { e1 with personId := pid, newContactFound := "Yes", contactMeetsCriteria := "Yes" }
    | (e1, none) => { e1 with newContactFound := "No" }
  else
    e

/-- Embedded from the loop body of contactSearch.contact_search_loose
(lines 180-188): only records with needsContact = Yes and
newContactFound = No are queried; on a person id the code sets personId,
newContactFound = Yes and contactMeetsCriteria = No.  No line writes
contactMatchCriteria. -/
def contact_search_loose_step (oracle : String → Http SearchBody) (e : Entry) : Entry :=
  if e.needsContact = "Yes" ∧ e.newContactFound = "No" then
    match get_contact_person_id_loose oracle e with
    | (e1, some pid) =>
      { e1 with personId := pid, newContactFound := "Yes", contactMeetsCriteria := "No" }
    | (e1, none) => { e1 with newContactFound := "No" }
  else
    e

/-- Embedded from contactSearch.contact_search_strict (lines 115-153): the
records are mutated in place in order and the whole list written back. -/
def contact_search_strict_pass (oracle : String → Http SearchBody) :
    List Entry → List Entry
  | [] => []
  | e :: rest => contact_search_strict_step oracle e :: contact_search_strict_pass oracle rest

/-- Embedded from contactSearch.contact_search_loose (lines 156-195): the
records are mutated in place in order and the whole list written back. -/
def contact_search_loose_pass (oracle : String → Http SearchBody) :
    List Entry → List Entry
  | [] => []
  | e :: rest => contact_search_loose_step oracle e :: contact_search_loose_pass oracle rest

/-- The per-record composite of the strict search pass followed by the loose
search pass (two consecutive dataset passes over the same file). -/
def contact_search_both (oracleStrict oracleLoose : String → Http SearchBody)
    (e : Entry) : Entry :=
  contact_search_loose_step oracleLoose (contact_search_strict_step oracleStrict e)

/-! ## auth.py and the desktop token lifecycle -/

/-- Body of an auth-endpoint 200 response: the jwt field. -/
structure AuthBody where
  jwt : String
  deriving Repr, DecidableEq

/-- Embedded from auth.authenticate (lines 24-46): on a 200 response the jwt
field is returned, on any other status the function returns None — it does
not raise. -/
def desktop_authenticate (r : Http AuthBody) : Option String :=
  if r.status = 200 then some r.body.jwt else none

/-- The shared desktop session: the jwt token threaded through the stages
(None when a re-authentication returned None) and the last issuance time. -/
structure Session where
  jwt : Option String
  last : Int
  deriving Repr, DecidableEq

/-- The staleness test repeated at the top of every desktop stage loop
(contactEnrich.py 108, companyEnrich.py 121 and 246, contactSearch.py 134
and 176, addNewContact.py 100): time.time() - last_auth_time >= 55*60. -/
def desktop_stale (now last : Int) : Bool :=
  decide (55 * 60 ≤ now - last)

/-- The desktop per-stage refresh step: when stale, authenticate is called
(its own HTTP exchange; a transport-level exception, the Except.error case,
propagates and aborts the pass) and both token and timestamp are replaced —
the token with authenticate's result, which is None on a non-200 auth
response; when fresh the session is unchanged. -/
def refresh_if_stale (now : Int) (authResp : Except String (Http AuthBody))
    (s : Session) : Except String Session :=
  if desktop_stale now s.last then
    match authResp with
    | .error m => .error m
    | .ok r => .ok { jwt := desktop_authenticate r, last := now }
  else
    .ok s

/-- companyEnrich.company_enrich with the session threaded through the loop
(lines 119-128): each iteration runs the staleness check and then the record
step, with the company responses depending on the token in use (oracleOf). -/
def company_enrich_sess (authResp : Except String (Http AuthBody))
    (oracleOf : Option String → CompanyMatchInput → Http CompanyRespBody) :
    List (Int × Entry) → Session → Except String (List Entry × Session)
  | [], s => .ok ([], s)
  | (now, e) :: rest, s =>
    match refresh_if_stale now authResp s with
    | .error m => .error m
    | .ok s1 =>
      match company_step (oracleOf s1.jwt) e with
      | .error m => .error m
      | .ok e1 =>
        match company_enrich_sess authResp oracleOf rest s1 with
        | .error m => .error m
        | .ok (out, s2) => .ok (e1 :: out, s2)

/-! ## lambda_auth.py and lambda_enrichment.py -/

/-- Embedded from lambda_auth.authenticate (lines 59-101): a transport-level
failure raises AuthError, and a non-200 auth response also raises AuthError —
unlike the desktop authenticate, which returns None.  Both fatal paths are
Except.error. -/
def lambda_authenticate (r : Except String (Http AuthBody)) : Except String String :=
  match r with
  | .error m => .error ("Failed to connect to ZoomInfo API: " ++ m)
  | .ok resp =>
    if resp.status ≠ 200 then .error ("Authentication failed: " ++ resp.text)
    else .ok resp.body.jwt

/-- The Lambda processor session fields jwt_token / last_auth_time, both
initialised to None. -/
structure LambdaSession where
  jwt_token : Option String
  last_auth_time : Option Int
  deriving Repr, DecidableEq

/-- Python truthiness of the optional token: None and the empty string are
falsy. -/
def tokenFalsy : Option String → Bool
  | none => true
  | some s => decide (s = "")

/-- Python truthiness of the optional timestamp: None and 0 are falsy. -/
def timeFalsy : Option Int → Bool
  | none => true
  | some t => decide (t = 0)

/-- The refresh condition of lambda_enrichment.EnrichmentProcessor._check_token
(lines 119-123): not self.jwt_token or not self.last_auth_time or
(current_time - self.last_auth_time) > 55*60 — note the strict >. -/
def lambda_needs_refresh (now : Int) (s : LambdaSession) : Bool :=
  tokenFalsy s.jwt_token || timeFalsy s.last_auth_time ||
    (match s.last_auth_time with
     | none => true
     | some t => decide (now - t > 55 * 60))

/-- Embedded from _check_token (lines 119-125): when the refresh condition
holds, the token becomes the freshly fetched one and last_auth_time becomes
current_time; otherwise both fields are left unchanged. -/
def lambda_check_token (now : Int) (fresh : String) (s : LambdaSession) : LambdaSession :=
  if lambda_needs_refresh now s then
    { jwt_token := some fresh, last_auth_time := some now }
  else
    s

/-- The contact object under result[0].data of the Lambda contact response;
all keys optional (read through dict.get). -/
structure LPersonData where
  firstName : Option String
  lastName : Option String
  email : Option String
  phone : Option String
  jobTitle : Option String
  deriving Repr, DecidableEq

/-- One element of the result list read by _enrich_contact: matchStatus and
the data object, both optional. -/
structure LContactResult where
  matchStatus : Option String
  data : Option LPersonData
  deriving Repr, DecidableEq

/-- Parsed body of a Lambda contact-endpoint 200 response: success and the
list under data.result (response_data.get(data, {}).get(result), truthy iff
non-empty). -/
structure LContactResp where
  success : Bool
  result : List LContactResult
  deriving Repr, DecidableEq

/-- Embedded from lambda_enrichment.EnrichmentProcessor._enrich_contact
(lines 155-177), given the HTTP response to the request built from the entry:
on 200 with success and a non-empty result whose head has matchStatus
FULL_MATCH and a data object, entry.update overwrites firstName, lastName,
emailAddress and phone with contact_data.get(key, entry.get(key, "")) — the
existing value survives only when the response omits the key — and jobTitle
with contact_data.get(jobTitle, ""); the other branches only set
enrichmentStatus. -/
def lambda_enrich_contact (r : Http LContactResp) (e : Entry) : Entry :=
  if r.status = 200 then
    if r.body.success ∧ r.body.result ≠ [] then
      let res := r.body.result.headD { matchStatus := none, data := none }
      match res.data with
      | some cd =>
        if res.matchStatus = some "FULL_MATCH" then
          { e with
            firstName := cd.firstName.getD e.firstName
            lastName := cd.lastName.getD e.lastName
            emailAddress := cd.email.getD e.emailAddress
            phone := cd.phone.getD e.phone
            jobTitle := cd.jobTitle.getD ""
            enrichmentStatus := "Success" }
        else
          { e with enrichmentStatus := "No Match Found" }
      | none => { e with enrichmentStatus := "No Match Found" }
    else
      { e with enrichmentStatus := "No Data Available" }
  else
    { e with enrichmentStatus := "API Error: " ++ toString r.status }

/-- The company object under result[0].data of the Lambda company response. -/
structure LCompanyData where
  zi_c_name : Option String
  zi_c_company_id : Option String
  zi_c_url : Option String
  zi_c_linkedin_url : Option String
  zi_c_naics6 : Option String
  zi_c_employees : Option String
  deriving Repr, DecidableEq

/-- One element of the result list read by _enrich_company. -/
structure LCompanyResult where
  data : Option LCompanyData
  deriving Repr, DecidableEq

/-- Parsed body of a Lambda company-endpoint 200 response. -/
structure LCompanyResp where
  success : Bool
  result : List LCompanyResult
  deriving Repr, DecidableEq

/-- Embedded from lambda_enrichment.EnrichmentProcessor._enrich_company
(lines 214-237), given the HTTP response to the request built from the entry:
on 200 with success, a non-empty result and a data object, entry.update
overwrites zi_c_name, zi_c_company_id, zi_c_url, zi_c_linkedin_url,
zi_c_naics6 and zi_c_employees with company_data.get(key, "") — the existing
entry values are replaced unconditionally, with "" when the response omits
the key. -/
def lambda_enrich_company (r : Http LCompanyResp) (e : Entry) : Entry :=
  if r.status = 200 then
    if r.body.success ∧ r.body.result ≠ [] then
      let res := r.body.result.headD { data := none }
      match res.data with
      | some cd =>
        { e with
          zi_c_name := cd.zi_c_name.getD ""
          zi_c_company_id := cd.zi_c_company_id.getD ""
          zi_c_url := cd.zi_c_url.getD ""
          zi_c_linkedin_url := cd.zi_c_linkedin_url.getD ""
          zi_c_naics6 := cd.zi_c_naics6.getD ""
          zi_c_employees := cd.zi_c_employees.getD ""
          enrichmentStatus := "Success" }
      | none => { e with enrichmentStatus := "No Data Available" }
    else
      { e with enrichmentStatus := "No Match Found" }
  else
    { e with enrichmentStatus := "API Error: " ++ toString r.status }

/-- Drops the leading whitespace characters of a character list (structural
recursion, so that concrete inputs evaluate inside decide). -/
def dropLeadingWs : List Char → List Char
  | [] => []
  | c :: cs => if c.isWhitespace then dropLeadingWs cs else c :: cs

/-- Python str.strip embedded structurally: leading and trailing whitespace
removed. -/
def pyStrip (s : String) : String :=
  ⟨(dropLeadingWs (dropLeadingWs s.data).reverse).reverse⟩

/-- Embedded from lambda_enrichment.EnrichmentProcessor._update_needs_contact
(lines 245-254): has_contact = all four identity fields non-empty after
strip; needsContact = "No" if has_contact else "Yes". -/
def lambda_update_needs_contact (e : Entry) : Entry :=
  if pyStrip e.firstName ≠ "" ∧ pyStrip e.lastName ≠ "" ∧
      pyStrip e.emailAddress ≠ "" ∧ pyStrip e.phone ≠ "" then
    { e with needsContact := "No" }
  else
    { e with needsContact := "Yes" }

/-! ## Concrete fixtures for counterexamples and witnesses -/

/-- A Lambda contact-endpoint 200 FULL_MATCH response carrying the given
contact data object. -/
def lambdaContactOk (cd : LPersonData) : Http LContactResp where
  status := 200
  text := ""
  body := { success := true, result := [{ matchStatus := some "FULL_MATCH", data := some cd }] }

/-- A Lambda company-endpoint 200 success response carrying the given company
data object. -/
def lambdaCompanyOk (cd : LCompanyData) : Http LCompanyResp where
  status := 200
  text := ""
  body := { success := true, result := [{ data := some cd }] }

/-- A Lambda contact response: 200, FULL_MATCH, data providing only a
firstName of Bob. -/
def c1_resp : Http LContactResp :=
  lambdaContactOk { firstName := some "Bob", lastName := none,
                    email := none, phone := none, jobTitle := none }

/-- A record already holding the non-empty firstName Alice. -/
def c1_entry : Entry := { e0 with firstName := "Alice" }

/-- Contact-endpoint oracle that answers HTTP 500 to the record whose
companyName is B and a FULL_MATCH 200 to every other record. -/
def c2_oracle : MatchPersonInput → Http ContactResp := fun req =>
  if req.companyName = "B" then
    { status := 500, text := "Internal Server Error",
      body := { success := false, result := [] } }
  else
    { status := 200, text := "",
      body := { success := true,
                result := [{ matchStatus := "FULL_MATCH",
                             data := [{ firstName := "Jane", lastName := "Doe",
                                        email := "jane@acme.com", phone := "555-0100",
                                        jobTitle := "" }] }] } }

/-- A three-record dataset whose second record triggers the HTTP 500. -/
def c2_data : List Entry :=
  [{ e0 with companyName := "A" }, { e0 with companyName := "B" },
   { e0 with companyName := "C" }]

/-- A record with one identity-contact field non-empty and three empty. -/
def c3_entry : Entry := { e0 with firstName := "John" }

/-- Strict search oracle: 200 with an empty data list (no match). -/
def c4_oracle_strict : String → Http SearchBody := fun _ =>
  { status := 200, text := "", body := { data := [] } }

/-- Loose search oracle: 200 returning person id p1. -/
def c4_oracle_loose : String → Http SearchBody := fun _ =>
  { status := 200, text := "", body := { data := [{ id := "p1" }] } }

/-- A record flagged for contact search with a resolved company id. -/
def c4_entry : Entry := { e0 with needsContact := "Yes", zi_c_company_id := "c1" }

/-- The all-absent company data object: every output key missing. -/
def cdNone : CompanyData where
  zi_c_location_id := none
  zi_c_company_name := none
  zi_c_phone := none
  zi_c_url := none
  zi_c_naics6 := none
  zi_c_industry_primary := none
  zi_c_sub_industry_primary := none
  zi_c_employees := none
  zi_c_street := none
  zi_c_city := none
  zi_c_state := none
  zi_c_zip := none
  zi_c_country := none
  zi_c_name := none
  zi_c_company_id := none

/-- A 200 company response whose single result carries the given data. -/
def companyOk (cd : CompanyData) : Http CompanyRespBody where
  status := 200
  text := ""
  body := { success := true, data := some { result := [{ data := some cd }] } }

/-- Strict company oracle: 200 success whose result data carries only
zi_c_name = Acme. -/
def c5_oracle_strict : CompanyMatchInput → Http CompanyRespBody := fun _ =>
  companyOk { cdNone with zi_c_name := some "Acme" }

/-- Loose company oracle: 200 success whose result data carries only
zi_c_url = acme.com. -/
def c5_oracle_loose : CompanyMatchInput → Http CompanyRespBody := fun _ =>
  companyOk { cdNone with zi_c_url := some "acme.com" }

/-- The record run through the strict-then-loose company cascade. -/
def c5_entry : Entry := { e0 with companyName := "Acme Inc" }

/-- A mid-pass re-authentication answered with HTTP 401 (no transport
error). -/
def c7_auth : Except String (Http AuthBody) :=
  .ok { status := 401, text := "denied", body := { jwt := "unused" } }

/-- Company oracle by token: any present token gets a 200 no-match body,
a missing token gets HTTP 401. -/
def c7_oracleOf : Option String → CompanyMatchInput → Http CompanyRespBody := fun tok _ =>
  match tok with
  | some _ => { status := 200, text := "", body := { success := false, data := none } }
  | none => { status := 401, text := "Unauthorized", body := { success := false, data := none } }

/-- Two records with per-record clock readings 0 and 4000: the second
iteration finds the session stale. -/
def c7_sched : List (Int × Entry) :=
  [(0, { e0 with companyName := "A" }), (4000, { e0 with companyName := "B" })]

/-- A record whose emailAddress is non-empty, so the company request
includes the email field. -/
def c8_entry : Entry := { e0 with companyName := "Acme", emailAddress := "a@b.com" }

/-- Company oracle that answers HTTP 400 to any request carrying an email
field and 200 success to the same request without it. -/
def c8_oracle : CompanyMatchInput → Http CompanyRespBody := fun req =>
  if req.email.isSome then
    { status := 400, text := "email validation failed",
      body := { success := false, data := none } }
  else
    companyOk { cdNone with zi_c_name := some "Acme Corp" }

/-- Contact oracle answering 200 with success false: the per-record step
leaves the record unchanged. -/
def c9_oracle_contact : MatchPersonInput → Http ContactResp := fun _ =>
  { status := 200, text := "", body := { success := false, result := [] } }

/-- Company oracle answering 200 with success false. -/
def c9_oracle_company : CompanyMatchInput → Http CompanyRespBody := fun _ =>
  { status := 200, text := "", body := { success := false, data := none } }

/-- Search oracle answering 200 with an empty data list. -/
def c9_oracle_search : String → Http SearchBody := fun _ =>
  { status := 200, text := "", body := { data := [] } }

/-- Person-lookup oracle answering 200 with success false. -/
def c9_oracle_person : String → Http ContactResp := fun _ =>
  { status := 200, text := "", body := { success := false, result := [] } }

/-- A record whose company address is empty but whose zi_c address was
resolved by company enrichment. -/
def c10_entry : Entry :=
  { e0 with zi_c_street := "1 Main St", zi_c_city := "Springfield",
            zi_c_state := "IL", zi_c_zip := "62701" }

/-- Witness record for the fill-only theorem: firstName already holds X. -/
def c1w_entry : Entry := { e0 with firstName := "X" }

/-- Witness person result: a FULL_MATCH whose data offers a different
firstName and nothing else. -/
def c1w_item : PersonResult where
  matchStatus := "FULL_MATCH"
  data := [{ firstName := "Y", lastName := "", email := "", phone := "", jobTitle := "" }]

/-! ## Theorems -/

/-- Fill-only property of the unrolled field loop of update_company_data: a
non-empty entry field is never replaced by the merge. -/
theorem companyFillMerge_fill_only (e : Entry) (cd : CompanyData) :
    (e.zi_c_location_id ≠ "" → (companyFillMerge e cd).zi_c_location_id = e.zi_c_location_id) ∧
    (e.zi_c_company_name ≠ "" → (companyFillMerge e cd).zi_c_company_name = e.zi_c_company_name) ∧
    (e.zi_c_phone ≠ "" → (companyFillMerge e cd).zi_c_phone = e.zi_c_phone) ∧
    (e.zi_c_url ≠ "" → (companyFillMerge e cd).zi_c_url = e.zi_c_url) ∧
    (e.zi_c_naics6 ≠ "" → (companyFillMerge e cd).zi_c_naics6 = e.zi_c_naics6) ∧
    (e.zi_c_industry_primary ≠ "" → (companyFillMerge e cd).zi_c_industry_primary = e.zi_c_industry_primary) ∧
    (e.zi_c_sub_industry_primary ≠ "" → (companyFillMerge e cd).zi_c_sub_industry_primary = e.zi_c_sub_industry_primary) ∧
    (e.zi_c_employees ≠ "" → (companyFillMerge e cd).zi_c_employees = e.zi_c_employees) ∧
    (e.zi_c_street ≠ "" → (companyFillMerge e cd).zi_c_street = e.zi_c_street) ∧
    (e.zi_c_city ≠ "" → (companyFillMerge e cd).zi_c_city = e.zi_c_city) ∧
    (e.zi_c_state ≠ "" → (companyFillMerge e cd).zi_c_state = e.zi_c_state) ∧
    (e.zi_c_zip ≠ "" → (companyFillMerge e cd).zi_c_zip = e.zi_c_zip) ∧
    (e.zi_c_country ≠ "" → (companyFillMerge e cd).zi_c_country = e.zi_c_country) ∧
    (e.zi_c_name ≠ "" → (companyFillMerge e cd).zi_c_name = e.zi_c_name) ∧
    (e.zi_c_company_id ≠ "" → (companyFillMerge e cd).zi_c_company_id = e.zi_c_company_id) := by
  refine ⟨?_, ?_, ?_, ?_, ?_, ?_, ?_, ?_, ?_, ?_, ?_, ?_, ?_, ?_, ?_⟩ <;>
    intro h <;> simp [companyFillMerge, h]

/-- A successful update_company_data either left the record unchanged (no
usable result in the response) or applied the fill-only field merge. -/
theorem update_company_data_outcome (e : Entry) (resp : CompanyRespBody) (e1 : Entry)
    (h : update_company_data e resp = .ok e1) :
    e1 = e ∨ ∃ cd, e1 = companyFillMerge e cd := by
  obtain ⟨rsucc, rdata⟩ := resp
  cases rdata with
  | none =>
    simp only [update_company_data] at h
    exact Or.inl (by injection h with h2; exact h2.symm)
  | some inner =>
    obtain ⟨res⟩ := inner
    cases res with
    | nil =>
      simp only [update_company_data] at h
      exact Or.inl (by injection h with h2; exact h2.symm)
    | cons item tl =>
      obtain ⟨idata⟩ := item
      cases idata with
      | none => simp only [update_company_data] at h; simp at h
      | some cd =>
        simp only [update_company_data] at h
        exact Or.inr ⟨cd, by injection h with h2; exact h2.symm⟩

/-- Fill-only property of update_company_data (shared by the strict and loose
variants, whose bodies are identical): every one of the fifteen mergeable
fields survives when non-empty. -/
theorem update_company_data_fill_only (e : Entry) (resp : CompanyRespBody) (e1 : Entry)
    (h : update_company_data e resp = .ok e1) :
    (e.zi_c_location_id ≠ "" → e1.zi_c_location_id = e.zi_c_location_id) ∧
    (e.zi_c_company_name ≠ "" → e1.zi_c_company_name = e.zi_c_company_name) ∧
    (e.zi_c_phone ≠ "" → e1.zi_c_phone = e.zi_c_phone) ∧
    (e.zi_c_url ≠ "" → e1.zi_c_url = e.zi_c_url) ∧
    (e.zi_c_naics6 ≠ "" → e1.zi_c_naics6 = e.zi_c_naics6) ∧
    (e.zi_c_industry_primary ≠ "" → e1.zi_c_industry_primary = e.zi_c_industry_primary) ∧
    (e.zi_c_sub_industry_primary ≠ "" → e1.zi_c_sub_industry_primary = e.zi_c_sub_industry_primary) ∧
    (e.zi_c_employees ≠ "" → e1.zi_c_employees = e.zi_c_employees) ∧
    (e.zi_c_street ≠ "" → e1.zi_c_street = e.zi_c_street) ∧
    (e.zi_c_city ≠ "" → e1.zi_c_city = e.zi_c_city) ∧
    (e.zi_c_state ≠ "" → e1.zi_c_state = e.zi_c_state) ∧
    (e.zi_c_zip ≠ "" → e1.zi_c_zip = e.zi_c_zip) ∧
    (e.zi_c_country ≠ "" → e1.zi_c_country = e.zi_c_country) ∧
    (e.zi_c_name ≠ "" → e1.zi_c_name = e.zi_c_name) ∧
    (e.zi_c_company_id ≠ "" → e1.zi_c_company_id = e.zi_c_company_id) := by
  rcases update_company_data_outcome e resp e1 h with rfl | ⟨cd, rfl⟩
  · exact ⟨fun _ => rfl, fun _ => rfl, fun _ => rfl, fun _ => rfl, fun _ => rfl,
      fun _ => rfl, fun _ => rfl, fun _ => rfl, fun _ => rfl, fun _ => rfl,
      fun _ => rfl, fun _ => rfl, fun _ => rfl, fun _ => rfl, fun _ => rfl⟩
  · exact companyFillMerge_fill_only e cd

/-- C10: update_address backfill is all-or-nothing — when companyStreet,
companyCity, companyState and companyZipCode are all empty, all four are
copied from zi_c_street, zi_c_city, zi_c_state and zi_c_zip; when any one of
the four is non-empty, the record is left completely unchanged (no partial
backfill). -/
theorem update_address_all_or_nothing (e : Entry) :
    ((e.companyStreet = "" ∧ e.companyCity = "" ∧ e.companyState = "" ∧ e.companyZipCode = "") →
      (update_address_entry e).companyStreet = e.zi_c_street ∧
      (update_address_entry e).companyCity = e.zi_c_city ∧
      (update_address_entry e).companyState = e.zi_c_state ∧
      (update_address_entry e).companyZipCode = e.zi_c_zip) ∧
    (¬(e.companyStreet = "" ∧ e.companyCity = "" ∧ e.companyState = "" ∧ e.companyZipCode = "") →
      update_address_entry e = e) := by
  unfold update_address_entry
  by_cases h : e.companyStreet = "" ∧ e.companyCity = "" ∧ e.companyState = "" ∧ e.companyZipCode = ""
  · simp [h]
  · simp [h]

/-- Witness for C10: a concrete record with empty company address and resolved
zi_c address receives all four values. -/
theorem update_address_all_or_nothing_witness :
    (update_address_entry c10_entry).companyStreet = c10_entry.zi_c_street ∧
    (update_address_entry c10_entry).companyCity = c10_entry.zi_c_city ∧
    (update_address_entry c10_entry).companyState = c10_entry.zi_c_state ∧
    (update_address_entry c10_entry).companyZipCode = c10_entry.zi_c_zip :=
  (update_address_all_or_nothing c10_entry).1 ⟨rfl, rfl, rfl, rfl⟩

/-- The needsContact value written by the desktop derivation, as a single
conditional. -/
theorem updateNeedsContact_entry_val (e : Entry) :
    (updateNeedsContact_entry e).needsContact =
      if e.firstName = "" ∧ e.lastName = "" ∧ e.emailAddress = "" ∧ e.phone = ""
      then "Yes" else "No" := by
  unfold updateNeedsContact_entry
  split <;> rfl

/-- The needsContact value written by the Lambda derivation, as a single
conditional. -/
theorem lambda_update_needs_contact_val (e : Entry) :
    (lambda_update_needs_contact e).needsContact =
      if pyStrip e.firstName ≠ "" ∧ pyStrip e.lastName ≠ "" ∧
          pyStrip e.emailAddress ≠ "" ∧ pyStrip e.phone ≠ ""
      then "No" else "Yes" := by
  unfold lambda_update_needs_contact
  split <;> rfl

/-- C3 counterexample: a record with firstName John and the other three
identity-contact fields empty. The claim demands needsContact = No from both
implementations; the desktop updateNeedsContact yields No, but the Lambda
_update_needs_contact yields Yes, so the claim as stated is false. -/
theorem c3_lambda_diverges :
    c3_entry.firstName ≠ "" ∧
    (updateNeedsContact_entry c3_entry).needsContact = "No" ∧
    (lambda_update_needs_contact c3_entry).needsContact = "Yes" := by
  refine ⟨by decide, ?_, ?_⟩ <;> decide

/-- C3 (amended): the desktop updateNeedsContact sets needsContact = Yes iff
all four identity-contact fields are empty and No otherwise; the Lambda
_update_needs_contact instead sets needsContact = No iff all four fields are
non-empty after stripping, i.e. Yes as soon as any one of the four is empty.
The two derivations agree only when the four fields are all empty or all
non-empty. -/
theorem needsContact_derivation (e : Entry) :
    ((updateNeedsContact_entry e).needsContact = "Yes" ↔
      (e.firstName = "" ∧ e.lastName = "" ∧ e.emailAddress = "" ∧ e.phone = "")) ∧
    ((updateNeedsContact_entry e).needsContact = "No" ↔
      ¬(e.firstName = "" ∧ e.lastName = "" ∧ e.emailAddress = "" ∧ e.phone = "")) ∧
    ((lambda_update_needs_contact e).needsContact = "No" ↔
      (pyStrip e.firstName ≠ "" ∧ pyStrip e.lastName ≠ "" ∧
        pyStrip e.emailAddress ≠ "" ∧ pyStrip e.phone ≠ "")) ∧
    ((lambda_update_needs_contact e).needsContact = "Yes" ↔
      ¬(pyStrip e.firstName ≠ "" ∧ pyStrip e.lastName ≠ "" ∧
        pyStrip e.emailAddress ≠ "" ∧ pyStrip e.phone ≠ "")) := by
  rw [updateNeedsContact_entry_val, lambda_update_needs_contact_val]
  refine ⟨?_, ?_, ?_, ?_⟩
  · by_cases h : e.firstName = "" ∧ e.lastName = "" ∧ e.emailAddress = "" ∧ e.phone = ""
    · rw [if_pos h]; exact iff_of_true rfl h
    · rw [if_neg h]; exact iff_of_false (by decide) h
  · by_cases h : e.firstName = "" ∧ e.lastName = "" ∧ e.emailAddress = "" ∧ e.phone = ""
    · rw [if_pos h]; exact iff_of_false (by decide) (not_not_intro h)
    · rw [if_neg h]; exact iff_of_true rfl h
  · by_cases h : pyStrip e.firstName ≠ "" ∧ pyStrip e.lastName ≠ "" ∧
        pyStrip e.emailAddress ≠ "" ∧ pyStrip e.phone ≠ ""
    · rw [if_pos h]; exact iff_of_true rfl h
    · rw [if_neg h]; exact iff_of_false (by decide) h
  · by_cases h : pyStrip e.firstName ≠ "" ∧ pyStrip e.lastName ≠ "" ∧
        pyStrip e.emailAddress ≠ "" ∧ pyStrip e.phone ≠ ""
    · rw [if_pos h]; exact iff_of_false (by decide) (not_not_intro h)
    · rw [if_neg h]; exact iff_of_true rfl h

/-- C1 counterexample: the Lambda _enrich_contact operation, given a 200
FULL_MATCH response whose data carries firstName Bob, replaces the non-empty
firstName Alice of the record with Bob — an enrichment operation overwriting
a field that already held a non-empty value, so the claim as stated (which
quantifies over both the desktop and the Lambda implementation) is false. -/
theorem lambda_overwrites_nonempty_field :
    c1_entry.firstName = "Alice" ∧ ("Alice" : String) ≠ "" ∧
    (lambda_enrich_contact c1_resp c1_entry).firstName = "Bob" ∧
    ("Bob" : String) ≠ "Alice" := by
  refine ⟨rfl, by decide, rfl, by decide⟩

/-- C1 (amended): the fill-only merge invariant holds for every desktop merge
operation — update_contact_data, update_new_contact_data, and
update_company_data in both its strict and loose variants never replace a
non-empty field.  The Lambda implementation does not share it: on a usable
response _enrich_contact sets each of the four identity fields to the
response value whenever the response provides the key (keeping the old value
only when the key is absent) and always overwrites jobTitle, and
_enrich_company overwrites its six company fields unconditionally, with ""
when the response omits the key. -/
theorem fill_only_merge (e e1 : Entry) (item : PersonResult)
    (resp : CompanyRespBody) (cd : LPersonData) (cdc : LCompanyData) :
    (update_contact_data e item = .ok e1 →
      (e.firstName ≠ "" → e1.firstName = e.firstName) ∧
      (e.lastName ≠ "" → e1.lastName = e.lastName) ∧
      (e.emailAddress ≠ "" → e1.emailAddress = e.emailAddress) ∧
      (e.phone ≠ "" → e1.phone = e.phone)) ∧
    (update_new_contact_data e item = .ok e1 →
      (e.firstName ≠ "" → e1.firstName = e.firstName) ∧
      (e.lastName ≠ "" → e1.lastName = e.lastName) ∧
      (e.emailAddress ≠ "" → e1.emailAddress = e.emailAddress) ∧
      (e.phone ≠ "" → e1.phone = e.phone) ∧
      (e.jobTitle ≠ "" → e1.jobTitle = e.jobTitle)) ∧
    (update_company_data e resp = .ok e1 →
      (e.zi_c_location_id ≠ "" → e1.zi_c_location_id = e.zi_c_location_id) ∧
      (e.zi_c_name ≠ "" → e1.zi_c_name = e.zi_c_name) ∧
      (e.zi_c_company_id ≠ "" → e1.zi_c_company_id = e.zi_c_company_id) ∧
      (e.zi_c_phone ≠ "" → e1.zi_c_phone = e.zi_c_phone) ∧
      (e.zi_c_url ≠ "" → e1.zi_c_url = e.zi_c_url) ∧
      (e.zi_c_naics6 ≠ "" → e1.zi_c_naics6 = e.zi_c_naics6) ∧
      (e.zi_c_employees ≠ "" → e1.zi_c_employees = e.zi_c_employees) ∧
      (e.zi_c_street ≠ "" → e1.zi_c_street = e.zi_c_street) ∧
      (e.zi_c_city ≠ "" → e1.zi_c_city = e.zi_c_city) ∧
      (e.zi_c_state ≠ "" → e1.zi_c_state = e.zi_c_state) ∧
      (e.zi_c_zip ≠ "" → e1.zi_c_zip = e.zi_c_zip) ∧
      (e.zi_c_country ≠ "" → e1.zi_c_country = e.zi_c_country)) ∧
    (update_company_data_loose e resp = .ok e1 →
      (e.zi_c_location_id ≠ "" → e1.zi_c_location_id = e.zi_c_location_id) ∧
      (e.zi_c_name ≠ "" → e1.zi_c_name = e.zi_c_name) ∧
      (e.zi_c_company_id ≠ "" → e1.zi_c_company_id = e.zi_c_company_id)) ∧
    ((lambda_enrich_contact (lambdaContactOk cd) e).firstName = cd.firstName.getD e.firstName ∧
      (lambda_enrich_contact (lambdaContactOk cd) e).jobTitle = cd.jobTitle.getD "") ∧
    ((lambda_enrich_company (lambdaCompanyOk cdc) e).zi_c_name = cdc.zi_c_name.getD "" ∧
      (lambda_enrich_company (lambdaCompanyOk cdc) e).zi_c_employees = cdc.zi_c_employees.getD "") := by
  obtain ⟨ms, pdata⟩ := item
  refine ⟨?_, ?_, ?_, ?_, ?_, ?_⟩
  · cases pdata with
    | nil => intro h; exact absurd h (by simp [update_contact_data])
    | cons pd tl =>
      intro h
      simp only [update_contact_data, Except.ok.injEq] at h
      subst h
      refine ⟨?_, ?_, ?_, ?_⟩ <;> intro hne <;> simp [hne]
  · cases pdata with
    | nil => intro h; exact absurd h (by simp [update_new_contact_data])
    | cons pd tl =>
      intro h
      simp only [update_new_contact_data, Except.ok.injEq] at h
      subst h
      refine ⟨?_, ?_, ?_, ?_, ?_⟩ <;> intro hne <;> simp [hne]
  · intro h
    obtain ⟨h1, h2, h3, h4, h5, h6, h7, h8, h9, h10, h11, h12, h13, h14, h15⟩ :=
      update_company_data_fill_only e resp e1 h
    exact ⟨h1, h14, h15, h3, h4, h5, h8, h9, h10, h11, h12, h13⟩
  · intro h
    obtain ⟨h1, h2, h3, h4, h5, h6, h7, h8, h9, h10, h11, h12, h13, h14, h15⟩ :=
      update_company_data_fill_only e resp e1 h
    exact ⟨h1, h14, h15⟩
  · constructor <;> simp [lambda_enrich_contact, lambdaContactOk]
  · constructor <;> simp [lambda_enrich_company, lambdaCompanyOk]

/-- Witness for the fill-only theorem: a concrete record whose firstName X is
non-empty meets a FULL_MATCH result offering Y; the merge succeeds and the
field keeps its value. -/
theorem fill_only_merge_witness :
    update_contact_data c1w_entry c1w_item = .ok c1w_entry ∧
    c1w_entry.firstName ≠ "" ∧
    c1w_entry.firstName = c1w_entry.firstName :=
  ⟨rfl, by decide,
    ((fill_only_merge c1w_entry c1w_entry c1w_item { success := false, data := none }
        { firstName := none, lastName := none, email := none, phone := none, jobTitle := none }
        { zi_c_name := none, zi_c_company_id := none, zi_c_url := none,
          zi_c_linkedin_url := none, zi_c_naics6 := none, zi_c_employees := none }).1
      rfl).1 (by decide)⟩


/-- C6 counterexample: at an elapsed time of exactly 3300 seconds (= 55*60)
the desktop staleness check fires but the Lambda _check_token does not (its
comparison is strictly greater), so the claim that both implementations
refresh exactly when the difference is at least 3300 seconds is false. -/
theorem lambda_refresh_boundary_differs :
    desktop_stale 3400 100 = true ∧
    lambda_needs_refresh 3400 { jwt_token := some "t", last_auth_time := some 100 } = false ∧
    (3400 : Int) - 100 = 3300 := by decide

/-- C6 (amended): the desktop staleness check refreshes exactly when
now - issued ≥ 55*60 seconds, while the Lambda _check_token refreshes exactly
when the token is falsy, the timestamp is falsy, or now - issued > 55*60
seconds (strictly); on refresh the Lambda check replaces both the token and
the timestamp and otherwise leaves both unchanged, the desktop per-stage step
leaves the session unchanged when fresh and replaces token and timestamp when
stale, and the two implementations agree at the claimed sample points T+3299
(no refresh) and T+3301 (refresh). -/
theorem token_refresh_boundary (now last t : Int) (tok fresh : String)
    (s : LambdaSession) (a : Except String (Http AuthBody)) (r : Http AuthBody)
    (sd : Session) :
    (desktop_stale now last = true ↔ 55 * 60 ≤ now - last) ∧
    (desktop_stale now sd.last = false → refresh_if_stale now a sd = .ok sd) ∧
    (desktop_stale now sd.last = true →
      refresh_if_stale now (.ok r) sd = .ok { jwt := desktop_authenticate r, last := now }) ∧
    (tok ≠ "" → t ≠ 0 →
      (lambda_needs_refresh now { jwt_token := some tok, last_auth_time := some t } = true ↔
        55 * 60 < now - t)) ∧
    (lambda_needs_refresh now s = false → lambda_check_token now fresh s = s) ∧
    (lambda_needs_refresh now s = true →
      lambda_check_token now fresh s = { jwt_token := some fresh, last_auth_time := some now }) ∧
    (desktop_stale 3299 0 = false ∧ desktop_stale 3301 0 = true ∧
      lambda_needs_refresh 3300 { jwt_token := some "x", last_auth_time := some 1 } = false ∧
      lambda_needs_refresh 3302 { jwt_token := some "x", last_auth_time := some 1 } = true) := by
  refine ⟨?_, ?_, ?_, ?_, ?_, ?_, by decide⟩
  · simp [desktop_stale]
  · intro h; simp [refresh_if_stale, h]
  · intro h; simp [refresh_if_stale, h]
  · intro htok ht
    simp [lambda_needs_refresh, tokenFalsy, timeFalsy, htok, ht]
  · intro h; simp [lambda_check_token, h]
  · intro h; simp [lambda_check_token, h]

/-- Witness for the token-refresh theorem at concrete inputs: a fresh desktop
session is left unchanged, and a stale Lambda session gets both fields
replaced. -/
theorem token_refresh_boundary_witness :
    refresh_if_stale 10 (.ok { status := 200, text := "", body := { jwt := "n" } })
        { jwt := some "o", last := 0 } = .ok { jwt := some "o", last := 0 } ∧
    lambda_check_token 4000 "n" { jwt_token := some "o", last_auth_time := some 1 } =
      { jwt_token := some "n", last_auth_time := some 4000 } :=
  ⟨(token_refresh_boundary 10 0 1 "o" "n" { jwt_token := some "o", last_auth_time := some 1 }
      (.ok { status := 200, text := "", body := { jwt := "n" } })
      { status := 200, text := "", body := { jwt := "n" } }
      { jwt := some "o", last := 0 }).2.1 (by decide),
   (token_refresh_boundary 4000 0 1 "o" "n" { jwt_token := some "o", last_auth_time := some 1 }
      (.ok { status := 200, text := "", body := { jwt := "n" } })
      { status := 200, text := "", body := { jwt := "n" } }
      { jwt := some "o", last := 0 }).2.2.2.2.2.1 (by decide)⟩

/-- C2: contact_enrich violates per-record failure isolation.
get_contact_enrichment_data answers a non-200 status by marking the record
Failed and returning None, and the loop then evaluates new_data.get(success)
on that None, raising AttributeError and aborting the whole pass before any
write-back.  companyEnrich and addNewContact guard the very same fetch with
`if new_data and ...`, and the error-recording machinery only makes sense
with continuation, so the missing guard is a slip in the code.  On the
three-record dataset whose second record draws HTTP 500, the pass aborts
instead of enriching records 1 and 3. -/
theorem contact_pass_aborts_on_record_failure :
    contact_enrich_pass c2_oracle c2_data =
      .error "AttributeError: NoneType object has no attribute get" := rfl

/-- Any pass shaped like the desktop Except-aborting record loop preserves
count and order: on success, the output has the same length and its i-th
record is the step applied to the i-th input. -/
theorem except_pass_ok (step : Entry → Except String Entry)
    (pass : List Entry → Except String (List Entry))
    (hnil : pass [] = .ok [])
    (hcons : ∀ e rest, pass (e :: rest) =
      match step e with
      | .error m => .error m
      | .ok e1 =>
        match pass rest with
        | .error m => .error m
        | .ok out => .ok (e1 :: out)) :
    ∀ data out, pass data = .ok out →
      out.length = data.length ∧
        ∀ i, i < data.length → step (data.getD i e0) = .ok (out.getD i e0) := by
  intro data
  induction data with
  | nil =>
    intro out h
    rw [hnil] at h
    injection h with h2
    subst h2
    exact ⟨rfl, fun i hi => absurd hi (by simp)⟩
  | cons e rest ih =>
    intro out h
    rw [hcons] at h
    cases hs : step e with
    | error m => rw [hs] at h; simp at h
    | ok e1 =>
      rw [hs] at h
      cases hr : pass rest with
      | error m => rw [hr] at h; simp at h
      | ok out2 =>
        rw [hr] at h
        injection h with h2
        subst h2
        obtain ⟨hl, hidx⟩ := ih out2 hr
        refine ⟨by simp [hl], ?_⟩
        intro i hi
        cases i with
        | zero => simpa using hs
        | succ j =>
          simp only [List.getD_cons_succ]
          exact hidx j (by simpa using hi)

/-- Any pass shaped like the total in-place record loop is List.map of its
step. -/
theorem map_pass (step : Entry → Entry) (pass : List Entry → List Entry)
    (hnil : pass [] = [])
    (hcons : ∀ e rest, pass (e :: rest) = step e :: pass rest) :
    ∀ data, pass data = data.map step := by
  intro data
  induction data with
  | nil => exact hnil
  | cons e rest ih => rw [hcons, ih, List.map_cons]

/-- C9: order preservation — every desktop stage pass writes back exactly the
records it read, in the same order, each mutated only by the per-record step:
the Except-shaped passes (contact enrichment, company enrichment strict and
loose) satisfy the length-and-index correspondence whenever they complete,
and the total passes (contact search strict and loose, new-contact hydration)
are List.map of their per-record step. -/
theorem pass_order_preservation (oc : MatchPersonInput → Http ContactResp)
    (og : CompanyMatchInput → Http CompanyRespBody)
    (os : String → Http SearchBody) (oa : String → Http ContactResp)
    (data out : List Entry) :
    (contact_enrich_pass oc data = .ok out →
      out.length = data.length ∧
        ∀ i, i < data.length → contact_step oc (data.getD i e0) = .ok (out.getD i e0)) ∧
    (company_enrich_pass og data = .ok out →
      out.length = data.length ∧
        ∀ i, i < data.length → company_step og (data.getD i e0) = .ok (out.getD i e0)) ∧
    (company_enrich_loose_pass og data = .ok out →
      out.length = data.length ∧
        ∀ i, i < data.length → company_step_loose og (data.getD i e0) = .ok (out.getD i e0)) ∧
    contact_search_strict_pass os data = data.map (contact_search_strict_step os) ∧
    contact_search_loose_pass os data = data.map (contact_search_loose_step os) ∧
    add_new_contact_pass oa data = data.map (add_new_contact_step oa) := by
  refine ⟨?_, ?_, ?_, ?_, ?_, ?_⟩
  · exact except_pass_ok (contact_step oc) (contact_enrich_pass oc) rfl
      (fun _ _ => rfl) data out
  · exact except_pass_ok (company_step og) (company_enrich_pass og) rfl
      (fun _ _ => rfl) data out
  · exact except_pass_ok (company_step_loose og) (company_enrich_loose_pass og) rfl
      (fun _ _ => rfl) data out
  · exact map_pass (contact_search_strict_step os) (contact_search_strict_pass os) rfl
      (fun _ _ => rfl) data
  · exact map_pass (contact_search_loose_step os) (contact_search_loose_pass os) rfl
      (fun _ _ => rfl) data
  · exact map_pass (add_new_contact_step oa) (add_new_contact_pass oa) rfl
      (fun _ _ => rfl) data

/-- Witness for the order-preservation theorem on a concrete singleton
dataset whose contact pass completes. -/
theorem pass_order_preservation_witness :
    ([e0] : List Entry).length = ([e0] : List Entry).length ∧
      ∀ i, i < ([e0] : List Entry).length →
        contact_step c9_oracle_contact (([e0] : List Entry).getD i e0) =
          .ok (([e0] : List Entry).getD i e0) :=
  (pass_order_preservation c9_oracle_contact c9_oracle_company c9_oracle_search
    c9_oracle_person [e0] [e0]).1 rfl

/-- A strict search fetch that produced a person id returned the record
untouched (only the None outcomes may have marked it Failed). -/
theorem get_strict_some_entry (os : String → Http SearchBody) (e e1 : Entry) (p : String)
    (h : get_contact_person_id_strict os e = (e1, some p)) : e1 = e := by
  unfold get_contact_person_id_strict at h
  split at h
  · simp at h
  · split at h
    · simp at h
    · split at h
      · simp at h
      · split at h
        · simp at h; exact h.1.symm
        · simp at h

/-- A loose search fetch that produced a person id returned the record
untouched. -/
theorem get_loose_some_entry (ol : String → Http SearchBody) (e e1 : Entry) (p : String)
    (h : get_contact_person_id_loose ol e = (e1, some p)) : e1 = e := by
  unfold get_contact_person_id_loose at h
  split at h
  · simp at h
  · split at h
    · simp at h
    · split at h
      · simp at h
      · split at h
        · simp at h; exact h.1.symm
        · simp at h

/-- The record returned by the strict search fetch never differs from the
input on personId, needsContact, newContactFound or contactMatchCriteria
(the only mutation is markFailed). -/
theorem get_strict_fst_fields (os : String → Http SearchBody) (e : Entry) :
    (get_contact_person_id_strict os e).1.personId = e.personId ∧
    (get_contact_person_id_strict os e).1.needsContact = e.needsContact ∧
    (get_contact_person_id_strict os e).1.newContactFound = e.newContactFound ∧
    (get_contact_person_id_strict os e).1.contactMatchCriteria = e.contactMatchCriteria := by
  unfold get_contact_person_id_strict
  split
  · exact ⟨rfl, rfl, rfl, rfl⟩
  · split
    · exact ⟨rfl, rfl, rfl, rfl⟩
    · split
      · exact ⟨rfl, rfl, rfl, rfl⟩
      · split
        · exact ⟨rfl, rfl, rfl, rfl⟩
        · exact ⟨rfl, rfl, rfl, rfl⟩

/-- The record returned by the loose search fetch never differs from the
input on personId, needsContact, newContactFound or contactMatchCriteria. -/
theorem get_loose_fst_fields (ol : String → Http SearchBody) (e : Entry) :
    (get_contact_person_id_loose ol e).1.personId = e.personId ∧
    (get_contact_person_id_loose ol e).1.needsContact = e.needsContact ∧
    (get_contact_person_id_loose ol e).1.newContactFound = e.newContactFound ∧
    (get_contact_person_id_loose ol e).1.contactMatchCriteria = e.contactMatchCriteria := by
  unfold get_contact_person_id_loose
  split
  · exact ⟨rfl, rfl, rfl, rfl⟩
  · split
    · exact ⟨rfl, rfl, rfl, rfl⟩
    · split
      · exact ⟨rfl, rfl, rfl, rfl⟩
      · split
        · exact ⟨rfl, rfl, rfl, rfl⟩
        · exact ⟨rfl, rfl, rfl, rfl⟩

/-- The strict search step preserves contactMatchCriteria and needsContact. -/
theorem strict_step_pres (os : String → Http SearchBody) (e : Entry) :
    (contact_search_strict_step os e).contactMatchCriteria = e.contactMatchCriteria ∧
    (contact_search_strict_step os e).needsContact = e.needsContact := by
  have hp := get_strict_fst_fields os e
  unfold contact_search_strict_step
  split
  · cases hg : get_contact_person_id_strict os e with
    | mk e1 r =>
      rw [hg] at hp
      cases r with
      | none => exact ⟨hp.2.2.2, hp.2.1⟩
      | some pid => exact ⟨hp.2.2.2, hp.2.1⟩
  · exact ⟨rfl, rfl⟩

/-- The loose search step preserves contactMatchCriteria. -/
theorem loose_step_pres (ol : String → Http SearchBody) (e : Entry) :
    (contact_search_loose_step ol e).contactMatchCriteria = e.contactMatchCriteria := by
  have hp := get_loose_fst_fields ol e
  unfold contact_search_loose_step
  split
  · cases hg : get_contact_person_id_loose ol e with
    | mk e1 r =>
      rw [hg] at hp
      cases r with
      | none => exact hp.2.2.2
      | some pid => exact hp.2.2.2
  · rfl

/-- C4 counterexample: a record with needsContact = Yes and a resolved
company id, a strict search that finds nothing and a loose search that finds
p1.  The code resolves the person id through the loose tier and sets
newContactFound = Yes and contactMeetsCriteria = No, but contactMatchCriteria
stays empty — no tier label such as companyId_loose is ever written, so the
claim as stated is false (and the desktop code has no locationId-scoped tiers
at all). -/
theorem contact_search_no_tier_label :
    (contact_search_both c4_oracle_strict c4_oracle_loose c4_entry).personId = "p1" ∧
    (contact_search_both c4_oracle_strict c4_oracle_loose c4_entry).newContactFound = "Yes" ∧
    (contact_search_both c4_oracle_strict c4_oracle_loose c4_entry).contactMatchCriteria = "" ∧
    (contact_search_both c4_oracle_strict c4_oracle_loose c4_entry).contactMeetsCriteria = "No" :=
  ⟨rfl, rfl, rfl, rfl⟩

/-- C4 (amended): the desktop contact search runs two company-scoped tiers as
two consecutive passes — strict first, then loose only for records still
carrying newContactFound = No — stopping at the first tier that yields a
person id; on success it sets personId, newContactFound = Yes and
contactMeetsCriteria (Yes for the strict tier, No for the loose tier); when
no tier succeeds newContactFound = No and personId is left unset; records not
flagged needsContact = Yes are untouched; and contactMatchCriteria is never
written by either tier.  There are no locationId-scoped tiers. -/
theorem contact_search_cascade (os ol : String → Http SearchBody) (e : Entry) :
    ((contact_search_both os ol e).contactMatchCriteria = e.contactMatchCriteria) ∧
    (e.needsContact ≠ "Yes" → contact_search_both os ol e = e) ∧
    (∀ e1 p, e.needsContact = "Yes" →
      get_contact_person_id_strict os e = (e1, some p) →
      contact_search_both os ol e =
        { e with personId := p, newContactFound := "Yes", contactMeetsCriteria := "Yes" }) ∧
    (∀ e1 e2 q, e.needsContact = "Yes" →
      get_contact_person_id_strict os e = (e1, none) →
      get_contact_person_id_loose ol { e1 with newContactFound := "No" } = (e2, some q) →
      contact_search_both os ol e =
        { e2 with personId := q, newContactFound := "Yes", contactMeetsCriteria := "No" }) ∧
    (∀ e1 e2, e.needsContact = "Yes" →
      get_contact_person_id_strict os e = (e1, none) →
      get_contact_person_id_loose ol { e1 with newContactFound := "No" } = (e2, none) →
      (contact_search_both os ol e).newContactFound = "No" ∧
      (contact_search_both os ol e).personId = e.personId) := by
  refine ⟨?_, ?_, ?_, ?_, ?_⟩
  · exact (loose_step_pres ol _).trans (strict_step_pres os e).1
  · intro hne
    have hstrict : contact_search_strict_step os e = e := by
      unfold contact_search_strict_step
      rw [if_neg hne]
    unfold contact_search_both
    rw [hstrict]
    unfold contact_search_loose_step
    rw [if_neg (fun h => hne h.1)]
  · intro e1 p hy hs
    rw [get_strict_some_entry os e e1 p hs] at hs
    have hstrict : contact_search_strict_step os e =
        { e with personId := p, newContactFound := "Yes", contactMeetsCriteria := "Yes" } := by
      unfold contact_search_strict_step
      rw [if_pos hy, hs]
    unfold contact_search_both
    rw [hstrict]
    unfold contact_search_loose_step
    rw [if_neg (fun h => absurd (show ("Yes" : String) = "No" from h.2) (by decide))]
  · intro e1 e2 q hy hs hl
    have hfields := get_strict_fst_fields os e
    rw [hs] at hfields
    have hstrict : contact_search_strict_step os e = { e1 with newContactFound := "No" } := by
      unfold contact_search_strict_step
      rw [if_pos hy, hs]
    have hcond : ({ e1 with newContactFound := "No" } : Entry).needsContact = "Yes" ∧
        ({ e1 with newContactFound := "No" } : Entry).newContactFound = "No" :=
      ⟨(show e1.needsContact = e.needsContact from hfields.2.1).trans hy, rfl⟩
    unfold contact_search_both
    rw [hstrict]
    unfold contact_search_loose_step
    rw [if_pos hcond, hl]
  · intro e1 e2 hy hs hl
    have hfields := get_strict_fst_fields os e
    rw [hs] at hfields
    have hlfields := get_loose_fst_fields ol { e1 with newContactFound := "No" }
    rw [hl] at hlfields
    have hstrict : contact_search_strict_step os e = { e1 with newContactFound := "No" } := by
      unfold contact_search_strict_step
      rw [if_pos hy, hs]
    have hcond : ({ e1 with newContactFound := "No" } : Entry).needsContact = "Yes" ∧
        ({ e1 with newContactFound := "No" } : Entry).newContactFound = "No" :=
      ⟨(show e1.needsContact = e.needsContact from hfields.2.1).trans hy, rfl⟩
    unfold contact_search_both
    rw [hstrict]
    unfold contact_search_loose_step
    rw [if_pos hcond, hl]
    refine ⟨rfl, ?_⟩
    have h1 : e2.personId = e1.personId := hlfields.1
    have h2 : e1.personId = e.personId := hfields.1
    exact h1.trans h2

/-- Witness for the contact-search cascade theorem: a record not flagged
needsContact = Yes passes through both tiers untouched. -/
theorem contact_search_cascade_witness :
    contact_search_both c4_oracle_strict c4_oracle_loose e0 = e0 :=
  (contact_search_cascade c4_oracle_strict c4_oracle_loose e0).2.1 (by decide)

/-- The strict company fetch either fails the record (non-200) or hands back
the parsed body, always logging exactly the one request it sent. -/
theorem get_company_outcome (og : CompanyMatchInput → Http CompanyRespBody) (e : Entry) :
    ((og (build_match_company_input e)).status ≠ 200 ∧
      get_company_enrichment_data og e =
        (markFailed e (og (build_match_company_input e)).text, none,
          [build_match_company_input e])) ∨
    ((og (build_match_company_input e)).status = 200 ∧
      get_company_enrichment_data og e =
        (e, some (og (build_match_company_input e)).body, [build_match_company_input e])) := by
  by_cases h : (og (build_match_company_input e)).status = 200
  · right
    refine ⟨h, ?_⟩
    unfold get_company_enrichment_data
    rw [if_neg (not_not_intro h)]
  · left
    refine ⟨h, ?_⟩
    unfold get_company_enrichment_data
    rw [if_pos h]

/-- The loose company fetch mirror of get_company_outcome. -/
theorem get_company_outcome_loose (ol : CompanyMatchInput → Http CompanyRespBody) (e : Entry) :
    ((ol (build_match_company_input_loose e)).status ≠ 200 ∧
      get_company_enrichment_data_loose ol e =
        (markFailed e (ol (build_match_company_input_loose e)).text, none,
          [build_match_company_input_loose e])) ∨
    ((ol (build_match_company_input_loose e)).status = 200 ∧
      get_company_enrichment_data_loose ol e =
        (e, some (ol (build_match_company_input_loose e)).body,
          [build_match_company_input_loose e])) := by
  by_cases h : (ol (build_match_company_input_loose e)).status = 200
  · right
    refine ⟨h, ?_⟩
    unfold get_company_enrichment_data_loose
    rw [if_neg (not_not_intro h)]
  · left
    refine ⟨h, ?_⟩
    unfold get_company_enrichment_data_loose
    rw [if_pos h]

/-- A successful strict company step produced the input record, the input
record marked Failed, or a fill-only merge of it. -/
theorem company_step_ok_outcome (og : CompanyMatchInput → Http CompanyRespBody) (e e1 : Entry)
    (h : company_step og e = .ok e1) :
    e1 = e ∨ (∃ t, e1 = markFailed e t) ∨ ∃ cd, e1 = companyFillMerge e cd := by
  unfold company_step at h
  split at h
  · rename_i a log heq
    rcases get_company_outcome og e with ⟨hst, hg⟩ | ⟨hst, hg⟩
    · rw [hg] at heq
      simp only [Prod.mk.injEq] at heq
      injection h with h2
      exact Or.inr (Or.inl ⟨(og (build_match_company_input e)).text, by rw [← h2, ← heq.1]⟩)
    · rw [hg] at heq
      simp at heq
  · rename_i a resp log heq
    rcases get_company_outcome og e with ⟨hst, hg⟩ | ⟨hst, hg⟩
    · rw [hg] at heq
      simp at heq
    · rw [hg] at heq
      simp only [Prod.mk.injEq, Option.some.injEq] at heq
      obtain ⟨ha, hresp, -⟩ := heq
      subst ha
      subst hresp
      by_cases hsucc : (og (build_match_company_input e)).body.success = true
      · rw [if_pos hsucc] at h
        rcases update_company_data_outcome _ _ _ h with h2 | ⟨cd, h2⟩
        · exact Or.inl h2
        · exact Or.inr (Or.inr ⟨cd, h2⟩)
      · rw [if_neg hsucc] at h
        injection h with h2
        exact Or.inl h2.symm

/-- A successful loose company step produced the input record, the input
record marked Failed, or a fill-only merge of it. -/
theorem company_step_loose_ok_outcome (ol : CompanyMatchInput → Http CompanyRespBody)
    (e e1 : Entry) (h : company_step_loose ol e = .ok e1) :
    e1 = e ∨ (∃ t, e1 = markFailed e t) ∨ ∃ cd, e1 = companyFillMerge e cd := by
  unfold company_step_loose at h
  split at h
  · rename_i a log heq
    rcases get_company_outcome_loose ol e with ⟨hst, hg⟩ | ⟨hst, hg⟩
    · rw [hg] at heq
      simp only [Prod.mk.injEq] at heq
      injection h with h2
      exact Or.inr (Or.inl ⟨(ol (build_match_company_input_loose e)).text, by rw [← h2, ← heq.1]⟩)
    · rw [hg] at heq
      simp at heq
  · rename_i a resp log heq
    rcases get_company_outcome_loose ol e with ⟨hst, hg⟩ | ⟨hst, hg⟩
    · rw [hg] at heq
      simp at heq
    · rw [hg] at heq
      simp only [Prod.mk.injEq, Option.some.injEq] at heq
      obtain ⟨ha, hresp, -⟩ := heq
      subst ha
      subst hresp
      by_cases hsucc : (ol (build_match_company_input_loose e)).body.success = true
      · rw [if_pos hsucc] at h
        rcases update_company_data_outcome _ _ _ (h : update_company_data e _ = .ok e1) with h2 | ⟨cd, h2⟩
        · exact Or.inl h2
        · exact Or.inr (Or.inr ⟨cd, h2⟩)
      · rw [if_neg hsucc] at h
        injection h with h2
        exact Or.inl h2.symm

/-- C5 counterexample: on a record where the strict tier already produced a
usable result (it filled zi_c_name), the loose pass still runs and merges its
own response (it fills zi_c_url), and company_match_criteria is left at its
initial empty value rather than recording Strict — so both the only-on-
strict-failure gating and the tier recording of the claim are false. -/
theorem company_match_criteria_never_set :
    company_enrich_both c5_oracle_strict c5_oracle_loose c5_entry =
      .ok { c5_entry with zi_c_name := "Acme", zi_c_url := "acme.com" } ∧
    ({ c5_entry with zi_c_name := "Acme", zi_c_url := "acme.com" } : Entry).company_match_criteria = "" ∧
    ({ c5_entry with zi_c_name := "Acme", zi_c_url := "acme.com" } : Entry).company_match_criteria ≠ "Strict" := by
  refine ⟨rfl, rfl, by decide⟩

/-- C5 (amended): main.py runs the strict company pass over the whole file
first and the loose pass immediately after, so per record the cascade is the
loose step composed after the strict step; the loose step runs for every
record with no gating on the strict outcome, fill-only merging means any
field the strict tier filled survives the loose tier; and no pass ever
writes company_match_criteria — the field keeps its prior value (the CSV
header mapping reserves a column for it, but no code assigns it). -/
theorem company_cascade (og ol : CompanyMatchInput → Http CompanyRespBody) (e e1 e2 : Entry) :
    (company_enrich_both og ol e = (company_step og e).bind (company_step_loose ol)) ∧
    (company_step og e = .ok e1 → e1.company_match_criteria = e.company_match_criteria) ∧
    (company_step_loose ol e = .ok e1 → e1.company_match_criteria = e.company_match_criteria) ∧
    ((get_company_enrichment_data_loose ol e).2.2 = [build_match_company_input_loose e]) ∧
    (company_step_loose ol e1 = .ok e2 →
      (e1.zi_c_name ≠ "" → e2.zi_c_name = e1.zi_c_name) ∧
      (e1.zi_c_url ≠ "" → e2.zi_c_url = e1.zi_c_url) ∧
      (e1.zi_c_company_id ≠ "" → e2.zi_c_company_id = e1.zi_c_company_id) ∧
      (e1.zi_c_location_id ≠ "" → e2.zi_c_location_id = e1.zi_c_location_id)) := by
  refine ⟨?_, ?_, ?_, ?_, ?_⟩
  · cases h : company_step og e <;> simp [company_enrich_both, h, Except.bind]
  · intro h
    rcases company_step_ok_outcome og e e1 h with rfl | ⟨t, rfl⟩ | ⟨cd, rfl⟩ <;> rfl
  · intro h
    rcases company_step_loose_ok_outcome ol e e1 h with rfl | ⟨t, rfl⟩ | ⟨cd, rfl⟩ <;> rfl
  · rcases get_company_outcome_loose ol e with ⟨hst, hg⟩ | ⟨hst, hg⟩ <;> rw [hg]
  · intro h
    rcases company_step_loose_ok_outcome ol e1 e2 h with rfl | ⟨t, rfl⟩ | ⟨cd, rfl⟩
    · exact ⟨fun _ => rfl, fun _ => rfl, fun _ => rfl, fun _ => rfl⟩
    · exact ⟨fun _ => rfl, fun _ => rfl, fun _ => rfl, fun _ => rfl⟩
    · have hf := companyFillMerge_fill_only e1 cd
      exact ⟨hf.2.2.2.2.2.2.2.2.2.2.2.2.2.1, hf.2.2.2.1, hf.2.2.2.2.2.2.2.2.2.2.2.2.2.2, hf.1⟩

/-- Witness for the company cascade theorem: the strict step on the concrete
record succeeds with a fill-only merge of zi_c_name and leaves
company_match_criteria at its prior value. -/
theorem company_cascade_witness :
    company_step c5_oracle_strict c5_entry = .ok { c5_entry with zi_c_name := "Acme" } ∧
    ({ c5_entry with zi_c_name := "Acme" } : Entry).company_match_criteria =
      c5_entry.company_match_criteria :=
  ⟨rfl, (company_cascade c5_oracle_strict c5_oracle_loose c5_entry
      { c5_entry with zi_c_name := "Acme" } e0).2.1 rfl⟩

/-- C7 counterexample: a two-record desktop company pass in which the
re-authentication before record 2 draws HTTP 401.  authenticate returns None
instead of raising, the pass carries on with a None token, record 2 fails
per-record with Unauthorized, and the pass completes — so a non-200 auth
response is not fatal to the pass and a stage does keep processing records
without a valid token, contradicting the claim. -/
theorem auth_non200_not_fatal :
    desktop_authenticate { status := 401, text := "denied", body := { jwt := "unused" } } = none ∧
    company_enrich_sess c7_auth c7_oracleOf c7_sched { jwt := some "tok0", last := 0 } =
      .ok ([{ e0 with companyName := "A" },
            markFailed { e0 with companyName := "B" } "Unauthorized"],
           { jwt := none, last := 4000 }) := by
  refine ⟨rfl, rfl⟩

/-- C7 (amended): in the desktop implementation only a transport-level
exception during re-authentication is fatal to a pass; a non-200 auth
response makes authenticate return None (the refresh step still succeeds,
installing a None token, and failures then surface per record), while the
Lambda lambda_auth.authenticate raises AuthError on both transport errors
and non-200 responses. -/
theorem auth_failure_handling (r : Http AuthBody) (m : String) (now : Int) (sd : Session) :
    (desktop_authenticate r = none ↔ r.status ≠ 200) ∧
    (refresh_if_stale now (.ok r) sd =
      .ok (if desktop_stale now sd.last then { jwt := desktop_authenticate r, last := now }
           else sd)) ∧
    (desktop_stale now sd.last = true → refresh_if_stale now (.error m) sd = .error m) ∧
    (lambda_authenticate (.error m) = .error ("Failed to connect to ZoomInfo API: " ++ m)) ∧
    (r.status ≠ 200 → lambda_authenticate (.ok r) = .error ("Authentication failed: " ++ r.text)) ∧
    (r.status = 200 → lambda_authenticate (.ok r) = .ok r.body.jwt) := by
  refine ⟨?_, ?_, ?_, rfl, ?_, ?_⟩
  · unfold desktop_authenticate
    by_cases h : r.status = 200
    · rw [if_pos h]
      exact iff_of_false (by simp) (not_not_intro h)
    · rw [if_neg h]
      exact iff_of_true rfl h
  · unfold refresh_if_stale
    by_cases h : desktop_stale now sd.last = true
    · rw [if_pos h, if_pos h]
    · rw [if_neg h, if_neg h]
  · intro h
    unfold refresh_if_stale
    rw [if_pos h]
  · intro h
    simp only [lambda_authenticate]
    rw [if_pos h]
  · intro h
    simp only [lambda_authenticate]
    rw [if_neg (not_not_intro h)]

/-- Witness for the auth-failure theorem: a 401 auth response raises in the
Lambda implementation and a stale desktop refresh propagates a transport
error. -/
theorem auth_failure_handling_witness :
    lambda_authenticate (.ok { status := 401, text := "x", body := { jwt := "j" } }) =
      .error ("Authentication failed: " ++ "x") ∧
    refresh_if_stale 4000 (.error "net down") { jwt := some "o", last := 0 } =
      .error "net down" :=
  ⟨(auth_failure_handling { status := 401, text := "x", body := { jwt := "j" } } "net down"
      4000 { jwt := some "o", last := 0 }).2.2.2.2.1 (by decide),
   (auth_failure_handling { status := 401, text := "x", body := { jwt := "j" } } "net down"
      4000 { jwt := some "o", last := 0 }).2.2.1 (by decide)⟩

/-- C8 counterexample: a record whose request carries the email field draws
HTTP 400; the fetch sends exactly that one request, marks the record Failed
and returns None, although the identical request with the email omitted
would have returned 200 — the email-omission retry the claim documents does
not exist in the code. -/
theorem http400_no_email_retry :
    c8_entry.emailAddress ≠ "" ∧
    (c8_oracle (build_match_company_input c8_entry)).status = 400 ∧
    get_company_enrichment_data c8_oracle c8_entry =
      (markFailed c8_entry "email validation failed", none,
        [build_match_company_input c8_entry]) ∧
    (c8_oracle { build_match_company_input c8_entry with email := none }).status = 200 := by
  refine ⟨by decide, rfl, rfl, rfl⟩

/-- C8 (amended): every call of the company fetch functions sends exactly one
request — the request list is the singleton built by the corresponding
builder, which includes the email field iff the record email is non-empty —
and any non-200 status (HTTP 400 included) marks the record Failed with the
response text and returns None without any retry. -/
theorem company_request_no_retry (og : CompanyMatchInput → Http CompanyRespBody) (e : Entry) :
    ((get_company_enrichment_data og e).2.2 = [build_match_company_input e]) ∧
    ((get_company_enrichment_data_loose og e).2.2 = [build_match_company_input_loose e]) ∧
    ((build_match_company_input e).email =
      if e.emailAddress ≠ "" then some e.emailAddress else none) ∧
    ((build_match_company_input_loose e).email =
      if e.emailAddress ≠ "" then some e.emailAddress else none) ∧
    ((og (build_match_company_input e)).status ≠ 200 →
      get_company_enrichment_data og e =
        (markFailed e (og (build_match_company_input e)).text, none,
          [build_match_company_input e])) := by
  refine ⟨?_, ?_, rfl, rfl, ?_⟩
  · unfold get_company_enrichment_data
    split <;> rfl
  · unfold get_company_enrichment_data_loose
    split <;> rfl
  · intro h
    unfold get_company_enrichment_data
    rw [if_pos h]

/-- Witness for the no-retry theorem at the concrete 400-answering oracle. -/
theorem company_request_no_retry_witness :
    get_company_enrichment_data c8_oracle c8_entry =
      (markFailed c8_entry (c8_oracle (build_match_company_input c8_entry)).text, none,
        [build_match_company_input c8_entry]) :=
  (company_request_no_retry c8_oracle c8_entry).2.2.2.2 (by decide)

/-- Witness for the needsContact derivation theorem: the all-empty record is
flagged Yes by the desktop derivation. -/
theorem needsContact_derivation_witness :
    (updateNeedsContact_entry e0).needsContact = "Yes" :=
  (needsContact_derivation e0).1.mpr ⟨rfl, rfl, rfl, rfl⟩

end DataEnrichment
